import Mathlib

/-!
Shallow embedding of the Trade-Opportunities-API analysis pipeline
(`src/analysis_engine/*`, `src/external_tools/ai_client.py`,
`src/app/services/in_memory_store.py`) together with proofs of the
spec claims about it.

External LLM and search calls are modelled by explicit oracle values
describing every outcome the Python client code distinguishes
(success, empty content, JSON decode failure, raised exception, ...).
Python `None`-able values become `Option`; Python exceptions that can
escape a function are modelled with `Except`; functions that catch all
their exceptions are total.
-/

set_option maxRecDepth 40000

namespace TradeAPI

/-- The aspects of a parsed JSON value that the critic code path observes:
whether it is a string (`.upper()` works, slicing works), a non-string
value supporting slicing (a JSON array), or any other value (number,
bool, null, object), on which both `.upper()` and `[:80]` raise. -/
inductive JVal where
  | jstr (s : String)
  | jarr
  | jother
  deriving DecidableEq, Repr

/-- A parsed JSON object as consumed by `critic_node`: only the keys
`decision` and `reason` are ever read (via `.get` with defaults), so
other keys are irrelevant and omitted. `none` models an absent key. -/
structure JDict where
  decision : Option JVal
  reason : Option JVal
  deriving DecidableEq, Repr

/-- Result of `json.loads` on the critique model output: either a JSON
object or some other JSON value (on which `.get` raises `AttributeError`). -/
inductive ParsedJson where
  | dict (d : JDict)
  | nonDict
  deriving DecidableEq, Repr

/-- Oracle for one invocation of the critique LLM call inside
`OpenAIClient.critique_report`: the call may raise, return empty
content, return content `json.loads` rejects, or return parsed JSON. -/
inductive CritiqueModelResult where
  | raises
  | emptyContent
  | jsonError
  | parsed (p : ParsedJson)
  deriving DecidableEq, Repr

/-- The value stored in `state['critique']`: the code stores either a
plain string (fast paths of `critic_node`) or a dict. -/
inductive Critique where
  | cstr (s : String)
  | cdict (d : JDict)
  deriving DecidableEq, Repr

/-- One entry of `search_results` as built by the data collector. -/
structure SearchResult where
  title : String
  url : String
  source : String
  snippet : String
  deriving DecidableEq, Repr

/-- The `json_summary` dict produced by `OpenAIClient.format_report`. -/
structure JsonSummary where
  market_size : Option String
  growth_cagr : Option String
  top_recommendations : List String
  deriving DecidableEq, Repr

/-- `AnalysisState` from `src/analysis_engine/graph_state.py`.
`Option` fields model keys whose value may be `None` (or, for
`data_quality` / `fallback_used`, absent: all readers use `.get` with a
default, so absent and `None` are observationally equal). -/
structure AnalysisState where
  sector : String
  country : String
  raw_data : Option String
  search_results : Option (List SearchResult)
  markdown_report : Option String
  critique : Option Critique
  iterations : Nat
  error : Option String
  timestamp : String
  json_summary : Option JsonSummary
  data_quality : Option String
  fallback_used : Option Bool
  deriving Repr

/-- Python `pat in hay` on strings (substring test). -/
def pyStrContains (hay pat : String) : Bool :=
  (List.range (hay.length + 1)).any fun i =>
    (hay.toList.drop i).take pat.length == pat.toList

/-- Python `str.upper()` (character-wise uppercasing). -/
def pyUpper (s : String) : String := (s.toList.map Char.toUpper).asString

/-- Python `int()` on a rational: truncation toward zero. -/
def pyInt (q : ℚ) : Int :=
  if q < 0 then -((-q).floor) else q.floor

/-- The dict `{"decision": "PASS", "reason": reason}` (the extra
`raw_output` key added on the JSON-decode-error path is never read). -/
def passDict (reason : String) : ParsedJson :=
  .dict ⟨some (.jstr "PASS"), some (.jstr reason)⟩

/-- `OpenAIClient.critique_report` (src/external_tools/ai_client.py):
all transport/parse failures degrade to a `PASS` dict; a successful
`json.loads` is returned unchanged, whatever shape it has. -/
def critique_report : CritiqueModelResult → ParsedJson
  | .raises => passDict "API error - defaulting to PASS to prevent blocking."
  | .emptyContent => passDict "Empty response from critique model."
  | .jsonError => passDict "JSON parse error - defaulting to PASS."
  | .parsed p => p

/-- The dict `critic_node` stores when its `except` handler fires. -/
def internalErrorPass : Critique :=
  .cdict ⟨some (.jstr "PASS"), some (.jstr "Internal node error - defaulted to PASS.")⟩

/-- The string critique stored by the too-short fast path of `critic_node`. -/
def tooShortCritique : Critique :=
  .cstr "FAIL: Report is too short or empty. Needs substantial content."

/-- What `critic_node` stores in `state['critique']` after calling the
model: `critique_dict.get('decision', 'PASS').upper()` raises on a
non-string decision (caught by the node's handler); when the decision
is a non-"PASS" string, the log line evaluates `reason[:80]`, which
raises on a non-sliceable reason value — this happens after
`state['critique'] = critique_dict`, but the handler then overwrites
the critique with the internal-error PASS dict. -/
def criticModelCritique (p : ParsedJson) : Critique :=
  match p with
  | .nonDict => internalErrorPass
  | .dict d =>
    match d.decision.getD (.jstr "PASS") with
    | .jstr ds =>
      if pyUpper ds = "PASS" then .cdict d
      else
        match d.reason.getD (.jstr "No reason provided") with
        | .jother => internalErrorPass
        | _ => .cdict d
    | _ => internalErrorPass

/-- The critique value `critic_node` stores, paired with whether the
critique model was invoked (`openai_client.critique_report` called). -/
def criticOutcome (cb : CritiqueModelResult) (s : AnalysisState) : Critique × Bool :=
  match s.markdown_report with
  | none => (tooShortCritique, false)
  | some report =>
    if report = "" ∨ report.length < 500 then (tooShortCritique, false)
    else if s.fallback_used.getD false then (.cstr "PASS", false)
    else (criticModelCritique (critique_report cb), true)

/-- `critic_node` (src/analysis_engine/nodes/critic_node.py). The node
only ever writes the `critique` field; the `Bool` component records
whether the critique model was invoked. -/
def critic_node (cb : CritiqueModelResult) (s : AnalysisState) : AnalysisState × Bool :=
  ({ s with critique := some (criticOutcome cb s).1 }, (criticOutcome cb s).2)

/-- Oracle for one invocation of `OpenAIClient.refine_report`: on a
raised exception or empty model content the client returns the original
report unchanged, so only a successful non-trivial completion is
distinguished. -/
inductive RefinerResult where
  | ok (content : String)
  | fails
  deriving DecidableEq, Repr

/-- `refiner_node` (src/analysis_engine/nodes/refiner_node.py): keeps
the original report unless the client returned truthy new content, and
increments `iterations` exactly once in the `finally` block. -/
def refiner_node (res : RefinerResult) (s : AnalysisState) : AnalysisState :=
  let refined : Option String :=
    match res with
    | .ok content => some content
    | .fails => s.markdown_report
  let report2 : Option String :=
    match refined with
    | some c => if c = "" then s.markdown_report else some c
    | none => s.markdown_report
  { s with markdown_report := report2, iterations := s.iterations + 1 }

/-- `should_continue_refinement` (src/analysis_engine/analysis_graph.py).
`Except` models the `TypeError` raised by `.upper()` when a stored
critique dict carries a non-string decision; that exception would
escape the graph. The `state.get('critique', {'decision': 'PASS'})`
default is dead code: the initial state always contains the key. -/
def should_continue_refinement (maxIters : Nat) (s : AnalysisState) : Except String String :=
  if maxIters ≤ s.iterations then .ok "format"
  else
    match s.critique with
    | some (.cdict d) =>
      match d.decision.getD (.jstr "PASS") with
      | .jstr ds => if pyUpper ds = "PASS" then .ok "format" else .ok "refine"
      | _ => .error "TypeError: upper on a non-string decision value"
    | some (.cstr c) => if pyStrContains (pyUpper c) "PASS" then .ok "format" else .ok "refine"
    | none => if pyStrContains "NONE" "PASS" then .ok "format" else .ok "refine"

/-- The dict returned by `DataCollector.collect_sector_data`: keys
`raw_data`, `search_results`, `total_results` are always present
(accessed with brackets); `data_quality` and `fallback_used` are read
back with `.get` defaults. -/
structure CollectorData where
  raw_data : String
  search_results : List SearchResult
  total_results : Nat
  data_quality : Option String
  fallback_used : Option Bool
  deriving Repr

/-- Oracle for one invocation of the data collector: the call either
returns its dict or raises (the message feeds the node's error field). -/
inductive CollectorResult where
  | ok (d : CollectorData)
  | raises (msg : String)
  deriving Repr

/-- `collector_node` (src/analysis_engine/nodes/collector_node.py). -/
def collector_node (res : CollectorResult) (s : AnalysisState) : AnalysisState :=
  match res with
  | .ok d =>
    { s with raw_data := some d.raw_data,
             search_results := some d.search_results,
             data_quality := some (d.data_quality.getD "unknown"),
             fallback_used := some (d.fallback_used.getD false) }
  | .raises msg =>
    { s with error := some ("Data collection failed: " ++ msg),
             raw_data := some "Data collection encountered an error.",
             search_results := some [] }

/-- Python `str.title()` restricted to the character classes the code
feeds it: uppercase an alphabetic character that follows a
non-alphabetic one, lowercase the rest. -/
def pyTitle (s : String) : String :=
  (s.toList.foldl
    (fun (acc : List Char × Bool) c =>
      (acc.1 ++ [if acc.2 then c.toLower else c.toUpper], c.isAlpha))
    ([], false)).1.asString

/-- `_generate_fallback_report` (src/analysis_engine/nodes/analyzer_node.py). -/
def generate_fallback_report (sector country : String) : String :=
  "# " ++ pyTitle sector ++ " Sector - Trade Opportunities Analysis (" ++ country ++ ")\n\n## Analysis Unavailable\n\nTechnical difficulties prevented analysis generation. Please retry or verify OpenAI API configuration.\n\n---\n*Sector: " ++ pyTitle sector ++ " | Market: " ++ country ++ " | Status: Service Issue*\n"

/-- `analyzer_node` (src/analysis_engine/nodes/analyzer_node.py).
`OpenAIClient.generate_analysis` catches every exception and returns
`None` on failure or empty content, so the node's own `except` branch
is unreachable; its oracle is therefore `Option String`. -/
def analyzer_node (res : Option String) (s : AnalysisState) : AnalysisState :=
  match res with
  | some report =>
    if report = "" then
      { s with error := some "AI analysis returned empty response",
               markdown_report := some (generate_fallback_report s.sector s.country) }
    else { s with markdown_report := some report }
  | none =>
    { s with error := some "AI analysis returned empty response",
             markdown_report := some (generate_fallback_report s.sector s.country) }

/-- Oracle for one invocation of `OpenAIClient.format_report`: the
client catches every exception and returns the all-null shape. -/
inductive FormatterResult where
  | ok (j : JsonSummary)
  | fails
  deriving Repr

/-- `OpenAIClient.format_report` as observed by `formatter_node`. -/
def format_report : FormatterResult → JsonSummary
  | .ok j => j
  | .fails => ⟨none, none, []⟩

/-- `formatter_node` (src/analysis_engine/nodes/formatter_node.py). -/
def formatter_node (res : FormatterResult) (s : AnalysisState) : AnalysisState :=
  { s with json_summary := some (format_report res) }

/-- All external behavior one workflow run can observe: the collector
outcome, the analyzer completion, and per-round critique/refiner
outcomes (round `k` is the `k`-th pass through the critic). -/
structure ModelBehavior where
  collector : CollectorResult
  analyzer : Option String
  critic : Nat → CritiqueModelResult
  refiner : Nat → RefinerResult
  formatter : FormatterResult

/-- The CRITIC → (REFINER → CRITIC)* portion of the compiled graph:
run the critic, then follow `should_continue_refinement` until it
answers `"format"` (or raises). Returns the state at loop exit together
with the number of refiner invocations. -/
def critiqueLoop (maxIters : Nat) (cb : Nat → CritiqueModelResult)
    (rb : Nat → RefinerResult) (k : Nat) (s : AnalysisState) :
    Except String AnalysisState × Nat :=
  let s1 := (critic_node (cb k) s).1
  match h : should_continue_refinement maxIters s1 with
  | .error e => (.error e, 0)
  | .ok dir =>
    if hd : dir = "refine" then
      let next := critiqueLoop maxIters cb rb (k + 1) (refiner_node (rb k) s1)
      (next.1, next.2 + 1)
    else (.ok s1, 0)
termination_by maxIters - s.iterations
decreasing_by
  have e1 : (critic_node (cb k) s).1.iterations = s.iterations := rfl
  have e2 : (refiner_node (rb k) (critic_node (cb k) s).1).iterations
      = s.iterations + 1 := rfl
  have hlt : s.iterations < maxIters := by
    by_contra hge
    push_neg at hge
    have hfmt : should_continue_refinement maxIters (critic_node (cb k) s).1
        = .ok "format" := by
      unfold should_continue_refinement
      rw [if_pos (by rw [e1]; omega)]
    rw [hfmt] at h
    injection h with h
    rw [← h] at hd
    simp at hd
  simp only [e2]
  omega

/-- The full compiled graph `collector → analyzer → critiqueLoop →
formatter`, propagating an exception raised inside the loop. -/
def runGraph (maxIters : Nat) (mb : ModelBehavior) (s0 : AnalysisState) :
    Except String AnalysisState × Nat :=
  let s1 := collector_node mb.collector s0
  let s2 := analyzer_node mb.analyzer s1
  let out := critiqueLoop maxIters mb.critic mb.refiner 0 s2
  match out.1 with
  | .ok sf => (.ok (formatter_node mb.formatter sf), out.2)
  | .error e => (.error e, out.2)

/-- The initial state built at the top of `execute_analysis`
(src/analysis_engine/analysis_graph.py); `data_quality` and
`fallback_used` keys are absent, observationally `none`. -/
def initialState (sector country now_iso : String) : AnalysisState :=
  { sector := sector, country := country, raw_data := none,
    search_results := none, markdown_report := none, critique := none,
    iterations := 0, error := none, timestamp := now_iso,
    json_summary := none, data_quality := none, fallback_used := none }

/-- `_generate_error_report` (src/analysis_engine/analysis_graph.py). -/
def generate_error_report (sector country error : String) : String :=
  "# " ++ pyTitle sector ++ " Sector - Trade Opportunities Analysis (" ++ country ++ ")\n\n## Workflow Error\n\nThe analysis workflow encountered a critical error and could not complete.\n\n**Error Details:**\n```\n" ++ error ++ "\n```\n\n## Recommended Actions\n\n1. Verify API configuration\n2. Check internet connection\n3. Review application logs\n4. Try again or contact support\n\n*Sector: " ++ pyTitle sector ++ " | Market: " ++ country ++ " | Status: Error*\n"

/-- `execute_analysis` (src/analysis_engine/analysis_graph.py): run the
graph; any exception escaping it is caught once here and converted into
a synthetic error report on the initial state. The second component
counts refiner invocations (instrumentation, not part of the state). -/
def execute_analysis (maxIters : Nat) (mb : ModelBehavior)
    (sector country now_iso : String) : AnalysisState × Nat :=
  match runGraph maxIters mb (initialState sector country now_iso) with
  | (.ok sf, n) => (sf, n)
  | (.error e, n) =>
    ({ initialState sector country now_iso with
        error := some ("Workflow execution failed: " ++ e),
        markdown_report := some (generate_error_report sector country e) }, n)

/-- One user's two timestamp deques inside `RateLimiter`
(src/app/services/in_memory_store.py). Timestamps are rational seconds
(Python datetimes have microsecond resolution); list head = deque
front = oldest entry, appends go at the back. -/
structure RateLimiterState where
  minute_requests : List ℚ
  hour_requests : List ℚ
  deriving DecidableEq, Repr

/-- `RateLimiter._clean_old_entries`: pop from the front while the
entry is older than the window. -/
def clean_old_entries (now : ℚ) (st : RateLimiterState) : RateLimiterState :=
  { minute_requests := st.minute_requests.dropWhile (fun ts => ts < now - 60),
    hour_requests := st.hour_requests.dropWhile (fun ts => ts < now - 3600) }

/-- `RateLimiter.check_rate_limit` for one user at time `now`, with
limits `rpm` / `rph`. The reply is `none` when the code would raise
`IndexError` (indexing `[0]` of an empty deque, reachable only with a
zero limit); cleaning has already mutated the deques in place at that
point, so the state component is the cleaned state in every branch that
does not record the request. -/
def check_rate_limit (rpm rph : Nat) (now : ℚ) (st : RateLimiterState) :
    Option (Bool × String) × RateLimiterState :=
  let st1 := clean_old_entries now st
  if rpm ≤ st1.minute_requests.length then
    (match st1.minute_requests.head? with
     | some oldest =>
       some (false, "Rate limit exceeded. Try again in "
         ++ toString (pyInt (60 - (now - oldest))) ++ " seconds.")
     | none => none, st1)
  else if rph ≤ st1.hour_requests.length then
    (match st1.hour_requests.head? with
     | some oldest =>
       some (false, "Hourly rate limit exceeded. Try again in "
         ++ toString (pyInt ((3600 - (now - oldest)) / 60)) ++ " minutes.")
     | none => none, st1)
  else
    (some (true, "OK"),
     { minute_requests := st1.minute_requests ++ [now],
       hour_requests := st1.hour_requests ++ [now] })

/-- Run a sequence of `check_rate_limit` calls for one user, starting
from the empty deques a fresh `defaultdict` entry provides. -/
def runCalls (rpm rph : Nat) (times : List ℚ) : RateLimiterState :=
  times.foldl (fun st t => (check_rate_limit rpm rph t st).2) ⟨[], []⟩

/-- Python-dict insertion on an association list: overwrite the value
in place if the key exists, else append. -/
def dictInsert (l : List (String × String)) (k v : String) : List (String × String) :=
  match l with
  | [] => [(k, v)]
  | (k', v') :: rest => if k' = k then (k, v) :: rest else (k', v') :: dictInsert rest k v

/-- Python-dict lookup (`dict.get`) on an association list. -/
def dictGet (l : List (String × String)) (k : String) : Option String :=
  match l with
  | [] => none
  | (k', v) :: rest => if k' = k then some v else dictGet rest k

/-- `APIKeyStore` (src/app/services/in_memory_store.py): the
`{api_key: user_id}` dict. -/
structure APIKeyStore where
  keys : List (String × String)
  deriving DecidableEq, Repr

/-- `APIKeyStore.__init__`: pre-populated demo keys. -/
def APIKeyStore.init : APIKeyStore :=
  ⟨[("demo-key-12345", "demo"), ("guest-key-67890", "guest"), ("test-key-abcde", "test")]⟩

/-- `APIKeyStore.generate_key`; `tok` stands for the random
`secrets.token_urlsafe(16)` draw. -/
def generate_key (st : APIKeyStore) (user_id tok : String) : String × APIKeyStore :=
  let api_key := user_id ++ "-" ++ tok
  (api_key, ⟨dictInsert st.keys api_key user_id⟩)

/-- `APIKeyStore.verify_key`. -/
def verify_key (st : APIKeyStore) (api_key : String) : Option String :=
  dictGet st.keys api_key

/-- Every store reachable from the fresh store by a sequence of
`generate_key` calls, one `(user_id, token)` pair per call. -/
def buildStore (ops : List (String × String)) : APIKeyStore :=
  ops.foldl (fun st op => (generate_key st op.1 op.2).2) .init

/-- The critique shapes `critic_node` can actually store: any string,
or a dict whose `decision` key is absent or holds a string. (A dict
with a non-string decision would make `should_continue_refinement`
raise, but no node ever stores one.) -/
def critiqueDecisionWf : Option Critique → Bool
  | some (.cdict d) =>
    match d.decision with
    | none => true
    | some (.jstr _) => true
    | _ => false
  | _ => true

/-- The `passed` computation of `should_continue_refinement`, extracted
as a predicate on the stored critique value. -/
def critiquePassed : Option Critique → Bool
  | some (.cdict d) =>
    match d.decision.getD (.jstr "PASS") with
    | .jstr ds => pyUpper ds = "PASS"
    | _ => false
  | some (.cstr c) => pyStrContains (pyUpper c) "PASS"
  | none => pyStrContains "NONE" "PASS"

/-- The normalized critique shape the spec promises after every Critic
run: a dict with `decision ∈ {PASS, FAIL}` and a string `reason`. -/
def normalizedCritiqueShape : Option Critique → Bool
  | some (.cdict d) =>
    (match d.decision with
     | some (.jstr ds) => ds = "PASS" ∨ ds = "FAIL"
     | _ => false : Bool)
    && (match d.reason with
        | some (.jstr _) => true
        | _ => false : Bool)
  | _ => false

/-- Critique-model outcomes on which the critic code's own parsing or
handling fails: a raised call, empty content, content `json.loads`
rejects, a non-object JSON value (`.get` raises), an object whose
`decision` is absent or not a string (`.upper()` raises on non-strings),
or a non-PASS string decision whose `reason` is a non-sliceable
non-string (`reason[:80]` in the log line raises). -/
def critiqueCallDegraded : CritiqueModelResult → Bool
  | .raises => true
  | .emptyContent => true
  | .jsonError => true
  | .parsed .nonDict => true
  | .parsed (.dict d) =>
    match d.decision with
    | none => true
    | some (.jstr _) =>
      (match d.reason with
       | some .jother => true
       | _ => false)
    | _ => true

/-- "Every LLM call fails": the analyzer completion is absent or empty,
every critique call raises or returns empty, every refinement call
fails, and the formatter call fails. -/
def llmAllFail (mb : ModelBehavior) : Prop :=
  (mb.analyzer = none ∨ mb.analyzer = some "") ∧
  (∀ k, mb.critic k = .raises ∨ mb.critic k = .emptyContent) ∧
  (∀ k, mb.refiner k = .fails) ∧
  mb.formatter = .fails

/-- A 500-character report, exactly at the critic's length threshold. -/
def longReport : String := String.mk (List.replicate 500 'a')

/-- A model behavior in which every external call fails. -/
def mbAllFail : ModelBehavior :=
  { collector := .raises "network down", analyzer := none,
    critic := fun _ => .raises, refiner := fun _ => .fails,
    formatter := .fails }

/-- A state whose report is long enough and whose collector marked
fallback data: the critic's fallback bypass branch fires here. -/
def fbState : AnalysisState :=
  { initialState "steel" "India" "t" with
      markdown_report := some longReport, fallback_used := some true }

/-- A state whose report is long enough and which carries no fallback
mark: the critic's model-call branch fires here. -/
def modelState : AnalysisState :=
  { initialState "steel" "India" "t" with markdown_report := some longReport }

/-- A state with a short report and fallback data: both critic fast
paths apply simultaneously; the length check runs first. -/
def shortFbState : AnalysisState :=
  { initialState "steel" "India" "t" with
      markdown_report := some "tiny", fallback_used := some true }

/-- A state carrying the too-short FAIL critique, as left behind by the
critic's fast path on an empty report. -/
def failCritiqueState : AnalysisState :=
  { initialState "steel" "India" "t" with critique := some tooShortCritique }

theorem refiner_node_report_fails (s : AnalysisState) :
    (refiner_node .fails s).markdown_report = s.markdown_report := by
  unfold refiner_node
  cases h : s.markdown_report with
  | none => simp
  | some c => by_cases hc : c = "" <;> simp [hc]

theorem criticModelCritique_wf (p : ParsedJson) :
    critiqueDecisionWf (some (criticModelCritique p)) = true := by
  rcases p with ⟨dec, rea⟩ | _
  · rcases dec with _ | v
    · unfold criticModelCritique
      simp only [Option.getD]
      rw [if_pos (by decide : pyUpper "PASS" = "PASS")]
      rfl
    · rcases v with ds | _ | _
      · unfold criticModelCritique
        simp only [Option.getD]
        by_cases hds : pyUpper ds = "PASS"
        · rw [if_pos hds]; rfl
        · rw [if_neg hds]
          rcases rea with _ | r
          · rfl
          · rcases r with _ | _ | _ <;> rfl
      · rfl
      · rfl
  · rfl

theorem criticOutcome_wf (cb : CritiqueModelResult) (s : AnalysisState) :
    critiqueDecisionWf (some (criticOutcome cb s).1) = true := by
  cases hr : s.markdown_report with
  | none => simp [criticOutcome, hr]; decide
  | some r =>
    by_cases h1 : r = "" ∨ r.length < 500
    · simp [criticOutcome, hr, h1]; decide
    · by_cases h2 : s.fallback_used.getD false = true
      · simp [criticOutcome, hr, h1, h2]; decide
      · simp only [criticOutcome, hr, h1, h2]
        simp
        exact criticModelCritique_wf _

theorem should_continue_spec (m : Nat) (s : AnalysisState)
    (hwf : critiqueDecisionWf s.critique = true) :
    should_continue_refinement m s =
      .ok (if m ≤ s.iterations then "format"
           else if critiquePassed s.critique then "format" else "refine") := by
  unfold should_continue_refinement
  by_cases hm : m ≤ s.iterations
  · rw [if_pos hm, if_pos hm]
  · rw [if_neg hm, if_neg hm]
    rcases hc : s.critique with _ | c
    · simp only [critiquePassed]
      by_cases h : pyStrContains "NONE" "PASS" = true <;> simp [h]
    · rcases c with cs | d
      · simp only [critiquePassed]
        by_cases h : pyStrContains (pyUpper cs) "PASS" = true <;> simp [h]
      · rw [hc] at hwf
        rcases hd : d.decision with _ | v
        · simp only [critiquePassed, hd, Option.getD]
          by_cases h : pyUpper "PASS" = "PASS" <;> simp [h]
        · rcases v with ds | _ | _
          · simp only [critiquePassed, hd, Option.getD]
            by_cases h : pyUpper ds = "PASS" <;> simp [h]
          · simp [critiqueDecisionWf, hd] at hwf
          · simp [critiqueDecisionWf, hd] at hwf

theorem critiqueLoop_exit (maxIters : Nat) (cb : Nat → CritiqueModelResult)
    (rb : Nat → RefinerResult) (k : Nat) (s : AnalysisState) (dir : String)
    (h : should_continue_refinement maxIters ((critic_node (cb k) s).1) = .ok dir)
    (hdir : dir ≠ "refine") :
    critiqueLoop maxIters cb rb k s = (.ok ((critic_node (cb k) s).1), 0) := by
  rw [critiqueLoop]
  split
  · next e heq => rw [h] at heq; cases heq
  · next dir' heq =>
    rw [h] at heq
    injection heq with heq
    subst heq
    rw [dif_neg hdir]

theorem critiqueLoop_refine (maxIters : Nat) (cb : Nat → CritiqueModelResult)
    (rb : Nat → RefinerResult) (k : Nat) (s : AnalysisState)
    (h : should_continue_refinement maxIters ((critic_node (cb k) s).1) = .ok "refine") :
    critiqueLoop maxIters cb rb k s =
      ((critiqueLoop maxIters cb rb (k + 1)
          (refiner_node (rb k) ((critic_node (cb k) s).1))).1,
       (critiqueLoop maxIters cb rb (k + 1)
          (refiner_node (rb k) ((critic_node (cb k) s).1))).2 + 1) := by
  rw [critiqueLoop]
  split
  · next e heq => rw [h] at heq; cases heq
  · next dir' heq =>
    rw [h] at heq
    injection heq with heq
    subst heq
    rw [dif_pos rfl]

theorem critiqueLoop_spec (maxIters : Nat) (cb : Nat → CritiqueModelResult)
    (rb : Nat → RefinerResult) :
    ∀ (d k : Nat) (s : AnalysisState), maxIters - s.iterations ≤ d →
      ∃ sf, (critiqueLoop maxIters cb rb k s).1 = .ok sf ∧
        sf.iterations = s.iterations + (critiqueLoop maxIters cb rb k s).2 ∧
        sf.error = s.error ∧
        (s.iterations ≤ maxIters →
          s.iterations + (critiqueLoop maxIters cb rb k s).2 ≤ maxIters) ∧
        ((∀ j, rb j = .fails) → sf.markdown_report = s.markdown_report) := by
  intro d
  induction d with
  | zero =>
    intro k s hd
    have hwf : critiqueDecisionWf ((critic_node (cb k) s).1).critique = true :=
      criticOutcome_wf (cb k) s
    have hs1 : ((critic_node (cb k) s).1).iterations = s.iterations := rfl
    have hm : maxIters ≤ s.iterations := by omega
    have hsc := should_continue_spec maxIters ((critic_node (cb k) s).1) hwf
    rw [hs1, if_pos hm] at hsc
    rw [critiqueLoop_exit maxIters cb rb k s "format" hsc (by simp)]
    refine ⟨(critic_node (cb k) s).1, rfl, ?_, rfl, ?_, ?_⟩
    · simpa using hs1
    · intro h; omega
    · intro _; rfl
  | succ d ih =>
    intro k s hd
    have hwf : critiqueDecisionWf ((critic_node (cb k) s).1).critique = true :=
      criticOutcome_wf (cb k) s
    have hs1 : ((critic_node (cb k) s).1).iterations = s.iterations := rfl
    have hsc := should_continue_spec maxIters ((critic_node (cb k) s).1) hwf
    rw [hs1] at hsc
    by_cases hm : maxIters ≤ s.iterations
    · rw [if_pos hm] at hsc
      rw [critiqueLoop_exit maxIters cb rb k s "format" hsc (by simp)]
      exact ⟨(critic_node (cb k) s).1, rfl, by simpa using hs1, rfl,
        fun h => by omega, fun _ => rfl⟩
    · rw [if_neg hm] at hsc
      by_cases hp : critiquePassed ((critic_node (cb k) s).1).critique = true
      · rw [if_pos hp] at hsc
        rw [critiqueLoop_exit maxIters cb rb k s "format" hsc (by simp)]
        exact ⟨(critic_node (cb k) s).1, rfl, by simpa using hs1, rfl,
          fun h => by omega, fun _ => rfl⟩
      · rw [if_neg hp] at hsc
        rw [critiqueLoop_refine maxIters cb rb k s hsc]
        have hiter : (refiner_node (rb k) ((critic_node (cb k) s).1)).iterations
            = s.iterations + 1 := rfl
        have herr : (refiner_node (rb k) ((critic_node (cb k) s).1)).error
            = s.error := rfl
        obtain ⟨sf, h1, h2, h3, h4, h5⟩ :=
          ih (k + 1) (refiner_node (rb k) ((critic_node (cb k) s).1)) (by omega)
        refine ⟨sf, h1, ?_, by rw [h3, herr], ?_, ?_⟩
        · simp only [h2, hiter]
          omega
        · intro hle
          by_cases hle' : s.iterations + 1 ≤ maxIters
          · have := h4 (by omega)
            rw [hiter] at this
            simp only []
            omega
          · omega
        · intro hrb
          rw [h5 hrb, hrb k, refiner_node_report_fails]
          rfl

theorem collector_node_iterations (res : CollectorResult) (s : AnalysisState) :
    (collector_node res s).iterations = s.iterations := by
  cases res <;> rfl

theorem analyzer_node_iterations (res : Option String) (s : AnalysisState) :
    (analyzer_node res s).iterations = s.iterations := by
  rcases res with _ | r
  · rfl
  · by_cases h : r = "" <;> simp [analyzer_node, h]

theorem analyzer_node_fail (res : Option String) (s : AnalysisState)
    (h : res = none ∨ res = some "") :
    (analyzer_node res s).error = some "AI analysis returned empty response" ∧
    (analyzer_node res s).markdown_report
      = some (generate_fallback_report s.sector s.country) := by
  rcases h with h | h <;> subst h <;> simp [analyzer_node]

theorem generate_fallback_report_ne_empty (sector country : String) :
    generate_fallback_report sector country ≠ "" := by
  intro h
  have h2 : (generate_fallback_report sector country).length = 0 := by
    rw [h]; rfl
  unfold generate_fallback_report at h2
  simp only [String.length_append] at h2
  have hb : 0 < (" Sector - Trade Opportunities Analysis (" : String).length := by
    decide
  omega

theorem execute_analysis_spec (maxIters : Nat) (mb : ModelBehavior)
    (sector country now_iso : String) :
    ∃ sf,
      execute_analysis maxIters mb sector country now_iso
        = (formatter_node mb.formatter sf,
           (execute_analysis maxIters mb sector country now_iso).2) ∧
      sf.iterations = (execute_analysis maxIters mb sector country now_iso).2 ∧
      (execute_analysis maxIters mb sector country now_iso).2 ≤ maxIters ∧
      sf.error = (analyzer_node mb.analyzer
        (collector_node mb.collector (initialState sector country now_iso))).error ∧
      ((∀ j, mb.refiner j = .fails) →
        sf.markdown_report = (analyzer_node mb.analyzer
          (collector_node mb.collector (initialState sector country now_iso))).markdown_report) := by
  set s2 := analyzer_node mb.analyzer
    (collector_node mb.collector (initialState sector country now_iso)) with hs2
  have hiter0 : s2.iterations = 0 := by
    rw [hs2, analyzer_node_iterations, collector_node_iterations]
    rfl
  obtain ⟨sf, h1, h2, h3, h4, h5⟩ :=
    critiqueLoop_spec maxIters mb.critic mb.refiner maxIters 0 s2 (by omega)
  rw [hs2] at h1
  have hex : execute_analysis maxIters mb sector country now_iso
      = (formatter_node mb.formatter sf,
         (critiqueLoop maxIters mb.critic mb.refiner 0 s2).2) := by
    unfold execute_analysis runGraph
    simp only [h1]
  have h6 : (execute_analysis maxIters mb sector country now_iso).2
      = (critiqueLoop maxIters mb.critic mb.refiner 0 s2).2 := by rw [hex]
  refine ⟨sf, ?_, ?_, ?_, h3, h5⟩
  · rw [hex]
  · rw [h6, h2, hiter0]
    simp
  · rw [h6]
    have := h4 (by omega)
    omega

/-- Claim C1: for every initial state and all model behaviors, the
CRITIQUE-REFINE loop invokes the Refiner at most `max_refinement_iterations`
times, the `iterations` field of the final workflow state is at most that
bound, and after every critique the transition rule is: `iterations >=
max_iterations` goes to FORMAT, else a PASS decision goes to FORMAT, else
to REFINE. -/
theorem C1_termination_bound_and_transition_rule :
    ∀ (maxIters : Nat) (mb : ModelBehavior) (sector country now_iso : String),
      (execute_analysis maxIters mb sector country now_iso).2 ≤ maxIters ∧
      (execute_analysis maxIters mb sector country now_iso).1.iterations ≤ maxIters ∧
      (∀ s : AnalysisState, critiqueDecisionWf s.critique = true →
        should_continue_refinement maxIters s =
          .ok (if maxIters ≤ s.iterations then "format"
               else if critiquePassed s.critique then "format" else "refine")) := by
  intro maxIters mb sector country now_iso
  obtain ⟨sf, hex, hit, hbound, _, _⟩ :=
    execute_analysis_spec maxIters mb sector country now_iso
  refine ⟨hbound, ?_, fun s hwf => should_continue_spec maxIters s hwf⟩
  rw [hex]
  show (formatter_node mb.formatter sf).iterations ≤ maxIters
  have hfmt : (formatter_node mb.formatter sf).iterations = sf.iterations := rfl
  rw [hfmt, hit]
  exact hbound

/-- Witness for C1 at concrete inputs: the all-fail behavior with
`max_refinement_iterations = 1` respects the bound, and a state carrying
the too-short FAIL critique at iteration 0 transitions to REFINE. -/
theorem C1_witness :
    (execute_analysis 1 mbAllFail "steel" "India" "t").2 ≤ 1 ∧
    critiqueDecisionWf failCritiqueState.critique = true ∧
    should_continue_refinement 1 failCritiqueState = .ok "refine" := by
  refine ⟨(C1_termination_bound_and_transition_rule 1 mbAllFail "steel" "India" "t").1,
    by decide, ?_⟩
  have h := (C1_termination_bound_and_transition_rule 1 mbAllFail "steel" "India" "t").2.2
    failCritiqueState (by decide)
  rw [h]
  have hval : (if 1 ≤ failCritiqueState.iterations then "format"
      else if critiquePassed failCritiqueState.critique = true then "format"
      else "refine") = "refine" := by decide
  rw [hval]

/-- Claim C2: one Refiner invocation increments `iterations` by exactly 1
whatever the refinement outcome; no other stage changes the counter; and
the final state's `iterations` equals the number of Refiner invocations
(so it is 0 exactly when the Refiner never ran). -/
theorem C2_iteration_counter :
    (∀ (res : RefinerResult) (s : AnalysisState),
      (refiner_node res s).iterations = s.iterations + 1) ∧
    (∀ (cb : CritiqueModelResult) (s : AnalysisState),
      (critic_node cb s).1.iterations = s.iterations) ∧
    (∀ (res : CollectorResult) (s : AnalysisState),
      (collector_node res s).iterations = s.iterations) ∧
    (∀ (res : Option String) (s : AnalysisState),
      (analyzer_node res s).iterations = s.iterations) ∧
    (∀ (res : FormatterResult) (s : AnalysisState),
      (formatter_node res s).iterations = s.iterations) ∧
    (∀ (maxIters : Nat) (mb : ModelBehavior) (sector country now_iso : String),
      (execute_analysis maxIters mb sector country now_iso).1.iterations
        = (execute_analysis maxIters mb sector country now_iso).2) := by
  refine ⟨fun res s => rfl, fun cb s => rfl, collector_node_iterations,
    analyzer_node_iterations, fun res s => rfl, ?_⟩
  intro maxIters mb sector country now_iso
  obtain ⟨sf, hex, hit, _, _, _⟩ :=
    execute_analysis_spec maxIters mb sector country now_iso
  rw [hex]
  exact hit

/-- The model-call branch of the critic always stores a dict, whose
decision key is absent or a string. -/
theorem criticModelCritique_shape (p : ParsedJson) :
    ∃ d, criticModelCritique p = .cdict d ∧
      (d.decision = none ∨ ∃ ds, d.decision = some (.jstr ds)) := by
  rcases p with ⟨dec, rea⟩ | _
  · rcases dec with _ | v
    · refine ⟨⟨none, rea⟩, ?_, Or.inl rfl⟩
      unfold criticModelCritique
      simp only [Option.getD]
      rw [if_pos (by decide : pyUpper "PASS" = "PASS")]
    · rcases v with ds | _ | _
      · unfold criticModelCritique
        simp only [Option.getD]
        by_cases hds : pyUpper ds = "PASS"
        · exact ⟨⟨some (.jstr ds), rea⟩, by rw [if_pos hds], Or.inr ⟨ds, rfl⟩⟩
        · rw [if_neg hds]
          rcases rea with _ | r
          · exact ⟨⟨some (.jstr ds), none⟩, rfl, Or.inr ⟨ds, rfl⟩⟩
          · rcases r with rs | _ | _
            · exact ⟨⟨some (.jstr ds), some (.jstr rs)⟩, rfl, Or.inr ⟨ds, rfl⟩⟩
            · exact ⟨⟨some (.jstr ds), some .jarr⟩, rfl, Or.inr ⟨ds, rfl⟩⟩
            · exact ⟨⟨some (.jstr "PASS"), some (.jstr "Internal node error - defaulted to PASS.")⟩,
                rfl, Or.inr ⟨"PASS", rfl⟩⟩
      · exact ⟨⟨some (.jstr "PASS"), some (.jstr "Internal node error - defaulted to PASS.")⟩,
          rfl, Or.inr ⟨"PASS", rfl⟩⟩
      · exact ⟨⟨some (.jstr "PASS"), some (.jstr "Internal node error - defaulted to PASS.")⟩,
          rfl, Or.inr ⟨"PASS", rfl⟩⟩
  · exact ⟨⟨some (.jstr "PASS"), some (.jstr "Internal node error - defaulted to PASS.")⟩,
      rfl, Or.inr ⟨"PASS", rfl⟩⟩

/-- Claim C3 (amended): whenever the critique model call raises, returns
empty content, or returns content the critic's own parsing cannot consume
(non-JSON, non-object JSON, absent or non-string decision, or a non-PASS
string decision with a non-sliceable reason), the critique terminates
normally and its decision is PASS — both at the `critique_report` module
boundary and through `critic_node`'s model branch. -/
theorem C3_fail_open_critique :
    ∀ (cb : CritiqueModelResult) (s : AnalysisState) (r : String),
      critiqueCallDegraded cb = true →
      critiquePassed (some (criticModelCritique (critique_report cb))) = true ∧
      (s.markdown_report = some r → ¬(r = "" ∨ r.length < 500) →
        s.fallback_used.getD false = false →
        critiquePassed ((critic_node cb s).1.critique) = true ∧
        (critic_node cb s).2 = true) := by
  intro cb s r hdeg
  have hpass : critiquePassed (some (criticModelCritique (critique_report cb))) = true := by
    rcases cb with _ | _ | _ | p
    · decide
    · decide
    · decide
    · rcases p with ⟨dec, rea⟩ | _
      · rcases dec with _ | v
        · have h1 : criticModelCritique (critique_report
              (.parsed (.dict ⟨none, rea⟩))) = .cdict ⟨none, rea⟩ := by
            simp only [critique_report]
            unfold criticModelCritique
            simp only [Option.getD]
            rw [if_pos (by decide : pyUpper "PASS" = "PASS")]
          rw [h1]
          simp only [critiquePassed, Option.getD]
          decide
        · rcases v with ds | _ | _
          · unfold critiqueCallDegraded at hdeg
            rcases hrea : rea with _ | rv
            · rw [hrea] at hdeg; simp at hdeg
            · rcases rv with rs | _ | _
              · rw [hrea] at hdeg; simp at hdeg
              · rw [hrea] at hdeg; simp at hdeg
              · show critiquePassed (some (criticModelCritique
                  (.dict ⟨some (.jstr ds), some .jother⟩))) = true
                unfold criticModelCritique
                simp only [Option.getD]
                by_cases hds : pyUpper ds = "PASS"
                · rw [if_pos hds]
                  simp only [critiquePassed, Option.getD]
                  rw [hds]
                  decide
                · rw [if_neg hds]
                  decide
          · have h1 : criticModelCritique (critique_report
                (.parsed (.dict ⟨some .jarr, rea⟩))) = internalErrorPass := rfl
            rw [h1]
            decide
          · have h1 : criticModelCritique (critique_report
                (.parsed (.dict ⟨some .jother, rea⟩))) = internalErrorPass := rfl
            rw [h1]
            decide
      · decide
  refine ⟨hpass, fun hmr h1 hfb => ?_⟩
  have hco : criticOutcome cb s = (criticModelCritique (critique_report cb), true) := by
    unfold criticOutcome
    simp only [hmr]
    rw [if_neg h1, if_neg (by simp [hfb])]
  constructor
  · show critiquePassed (some (criticOutcome cb s).1) = true
    rw [hco]
    exact hpass
  · show (criticOutcome cb s).2 = true
    rw [hco]

/-- Counterexample to C3 as stated: the content
`{"decision": "FAIL", "reason": [...]}` is not parseable as the expected
`{decision, reason}` object (its reason is an array, not a string), yet the
critic stores it verbatim and the resulting decision is FAIL, not PASS. -/
theorem C3_counterexample :
    critique_report (.parsed (.dict ⟨some (.jstr "FAIL"), some .jarr⟩))
      = .dict ⟨some (.jstr "FAIL"), some .jarr⟩ ∧
    (critic_node (.parsed (.dict ⟨some (.jstr "FAIL"), some .jarr⟩)) modelState).1.critique
      = some (.cdict ⟨some (.jstr "FAIL"), some .jarr⟩) ∧
    (critic_node (.parsed (.dict ⟨some (.jstr "FAIL"), some .jarr⟩)) modelState).2 = true ∧
    critiquePassed (some (.cdict ⟨some (.jstr "FAIL"), some .jarr⟩)) = false := by
  refine ⟨rfl, by decide, by decide, by decide⟩

/-- Claim C4: if every LLM call fails (raises or returns empty), the
top-level entry point still returns a state with a non-null, non-empty
report and a non-null error, and never raises: an exception escaping the
graph is caught once at the orchestrator boundary and converted into a
synthetic error report. -/
theorem C4_degrade_not_crash :
    ∀ (maxIters : Nat) (mb : ModelBehavior) (sector country now_iso : String),
      llmAllFail mb →
      (∃ r, (execute_analysis maxIters mb sector country now_iso).1.markdown_report
          = some r ∧ r ≠ "") ∧
      (execute_analysis maxIters mb sector country now_iso).1.error ≠ none ∧
      (∀ e n, runGraph maxIters mb (initialState sector country now_iso)
          = (.error e, n) →
        execute_analysis maxIters mb sector country now_iso =
          ({ initialState sector country now_iso with
              error := some ("Workflow execution failed: " ++ e),
              markdown_report := some (generate_error_report sector country e) }, n)) := by
  intro maxIters mb sector country now_iso hfail
  obtain ⟨hana, _, href, _⟩ := hfail
  obtain ⟨sf, hex, _, _, herr, hrep⟩ :=
    execute_analysis_spec maxIters mb sector country now_iso
  have hanaF := analyzer_node_fail mb.analyzer
    (collector_node mb.collector (initialState sector country now_iso)) hana
  refine ⟨?_, ?_, ?_⟩
  · refine ⟨generate_fallback_report
      (collector_node mb.collector (initialState sector country now_iso)).sector
      (collector_node mb.collector (initialState sector country now_iso)).country,
      ?_, generate_fallback_report_ne_empty _ _⟩
    rw [hex]
    show (formatter_node mb.formatter sf).markdown_report = _
    have hf : (formatter_node mb.formatter sf).markdown_report
        = sf.markdown_report := rfl
    rw [hf, hrep href, hanaF.2]
  · rw [hex]
    show (formatter_node mb.formatter sf).error ≠ none
    have hf : (formatter_node mb.formatter sf).error = sf.error := rfl
    rw [hf, herr, hanaF.1]
    simp
  · intro e n h
    unfold execute_analysis
    rw [h]

/-- Witness for C4 at the concrete all-fail behavior. -/
theorem C4_witness :
    (∃ r, (execute_analysis 1 mbAllFail "steel" "India" "t").1.markdown_report
        = some r ∧ r ≠ "") ∧
    (execute_analysis 1 mbAllFail "steel" "India" "t").1.error ≠ none :=
  ⟨(C4_degrade_not_crash 1 mbAllFail "steel" "India" "t"
      ⟨Or.inl rfl, fun _ => Or.inl rfl, fun _ => rfl, rfl⟩).1,
   (C4_degrade_not_crash 1 mbAllFail "steel" "India" "t"
      ⟨Or.inl rfl, fun _ => Or.inl rfl, fun _ => rfl, rfl⟩).2.1⟩

/-- Claim C5: when the Collector set `fallback_used = true` and the report
has length at least 500, the Critic stores the PASS critique without
invoking the critique model. -/
theorem C5_fallback_bypass :
    ∀ (cb : CritiqueModelResult) (s : AnalysisState) (r : String),
      s.markdown_report = some r → 500 ≤ r.length → s.fallback_used = some true →
      (critic_node cb s).1.critique = some (.cstr "PASS") ∧
      critiquePassed ((critic_node cb s).1.critique) = true ∧
      (critic_node cb s).2 = false := by
  intro cb s r hmr hlen hfb
  have h1 : ¬(r = "" ∨ r.length < 500) := by
    rintro (h | h)
    · subst h; simp at hlen
    · omega
  have hco : criticOutcome cb s = (.cstr "PASS", false) := by
    unfold criticOutcome
    simp only [hmr]
    rw [if_neg h1, if_pos (by rw [hfb]; rfl)]
  refine ⟨?_, ?_, ?_⟩
  · show some (criticOutcome cb s).1 = _
    rw [hco]
  · show critiquePassed (some (criticOutcome cb s).1) = true
    rw [hco]
    decide
  · show (criticOutcome cb s).2 = false
    rw [hco]

/-- Witness for C5 at a concrete fallback state with a 500-character report. -/
theorem C5_witness :
    (critic_node .raises fbState).1.critique = some (.cstr "PASS") ∧
    (critic_node .raises fbState).2 = false :=
  ⟨(C5_fallback_bypass .raises fbState longReport rfl (by decide) rfl).1,
   (C5_fallback_bypass .raises fbState longReport rfl (by decide) rfl).2.2⟩

/-- Claim C6: when the report is absent or shorter than 500 units the
Critic stores the fixed length-related FAIL critique without invoking the
model; the statement quantifies over all states, including those with
`fallback_used = true`, so the length check wins over the fallback bypass. -/
theorem C6_short_circuit_reject :
    ∀ (cb : CritiqueModelResult) (s : AnalysisState),
      (s.markdown_report = none ∨ ∃ r, s.markdown_report = some r ∧ r.length < 500) →
      (critic_node cb s).1.critique = some tooShortCritique ∧
      critiquePassed ((critic_node cb s).1.critique) = false ∧
      (critic_node cb s).2 = false := by
  intro cb s h
  have hco : criticOutcome cb s = (tooShortCritique, false) := by
    unfold criticOutcome
    rcases h with h | ⟨r, hmr, hlen⟩
    · simp only [h]
    · simp only [hmr]
      rw [if_pos (Or.inr hlen)]
  refine ⟨?_, ?_, ?_⟩
  · show some (criticOutcome cb s).1 = _
    rw [hco]
  · show critiquePassed (some (criticOutcome cb s).1) = false
    rw [hco]
    decide
  · show (criticOutcome cb s).2 = false
    rw [hco]

/-- Witness for C6 at a state where the report is short and
`fallback_used = true` simultaneously: the length check still wins. -/
theorem C6_witness :
    (critic_node .raises shortFbState).1.critique = some tooShortCritique ∧
    (critic_node .raises shortFbState).2 = false ∧
    shortFbState.fallback_used = some true :=
  ⟨(C6_short_circuit_reject .raises shortFbState
      (Or.inr ⟨"tiny", rfl, by decide⟩)).1,
   (C6_short_circuit_reject .raises shortFbState
      (Or.inr ⟨"tiny", rfl, by decide⟩)).2.2, rfl⟩

/-- Counterexample to C7 as stated: on the fallback fast path the critic
stores the plain string PASS, which does not have the normalized
`{decision, reason}` dict shape. -/
theorem C7_counterexample :
    (critic_node .raises fbState).1.critique = some (.cstr "PASS") ∧
    normalizedCritiqueShape ((critic_node .raises fbState).1.critique) = false := by
  exact ⟨by decide, by decide⟩

/-- Claim C7 (amended): after every Critic run the critique is either one
of the two fixed fast-path strings or a dict whose decision key is absent
or a string; the normalized dict shape is not guaranteed on the fast
paths. -/
theorem C7_critique_shape :
    ∀ (cb : CritiqueModelResult) (s : AnalysisState),
      (critic_node cb s).1.critique = some tooShortCritique ∨
      (critic_node cb s).1.critique = some (.cstr "PASS") ∨
      (∃ d, (critic_node cb s).1.critique = some (.cdict d) ∧
        (d.decision = none ∨ ∃ ds, d.decision = some (.jstr ds))) := by
  intro cb s
  rcases hmr : s.markdown_report with _ | r
  · left
    show some (criticOutcome cb s).1 = _
    unfold criticOutcome
    simp only [hmr]
  · by_cases h1 : r = "" ∨ r.length < 500
    · left
      show some (criticOutcome cb s).1 = _
      unfold criticOutcome
      simp only [hmr]
      rw [if_pos h1]
    · by_cases h2 : s.fallback_used.getD false = true
      · right; left
        show some (criticOutcome cb s).1 = _
        unfold criticOutcome
        simp only [hmr]
        rw [if_neg h1, if_pos h2]
      · right; right
        have hco : (criticOutcome cb s).1
            = criticModelCritique (critique_report cb) := by
          unfold criticOutcome
          simp only [hmr]
          rw [if_neg h1, if_neg (by simp [h2])]
        obtain ⟨d, hd, hdec⟩ := criticModelCritique_shape (critique_report cb)
        refine ⟨d, ?_, hdec⟩
        show some (criticOutcome cb s).1 = _
        rw [hco, hd]

theorem length_dropWhile_le (p : ℚ → Bool) (l : List ℚ) :
    (l.dropWhile p).length ≤ l.length := by
  induction l with
  | nil => simp
  | cons a l ih =>
    rw [List.dropWhile_cons]
    split
    · simp only [List.length_cons]
      omega
    · simp

theorem dropWhile_head_keep (c a : ℚ) (l : List ℚ) (h : ¬(a < c)) :
    (a :: l).dropWhile (fun ts => ts < c) = a :: l := by
  rw [List.dropWhile_cons, if_neg (by simpa using h)]

theorem dropWhile_all (c : ℚ) :
    ∀ (l : List ℚ), (∀ x ∈ l, x < c) → l.dropWhile (fun ts => ts < c) = [] := by
  intro l
  induction l with
  | nil => intro _; rfl
  | cons a l ih =>
    intro h
    rw [List.dropWhile_cons, if_pos (by simpa using h a (by simp))]
    exact ih fun x hx => h x (by simp [hx])

theorem check_allowed (rpm rph : Nat) (now : ℚ) (st : RateLimiterState)
    (lm lh : List ℚ)
    (hm : st.minute_requests.dropWhile (fun ts => ts < now - 60) = lm)
    (hh : st.hour_requests.dropWhile (fun ts => ts < now - 3600) = lh)
    (hmin : lm.length < rpm) (hhr : lh.length < rph) :
    check_rate_limit rpm rph now st
      = (some (true, "OK"), ⟨lm ++ [now], lh ++ [now]⟩) := by
  unfold check_rate_limit clean_old_entries
  simp only [hm, hh]
  rw [if_neg (by omega), if_neg (by omega)]

theorem check_allowed_reply (rpm rph : Nat) (now : ℚ) (st : RateLimiterState)
    (hmin : (st.minute_requests.dropWhile (fun ts => ts < now - 60)).length < rpm)
    (hhr : (st.hour_requests.dropWhile (fun ts => ts < now - 3600)).length < rph) :
    (check_rate_limit rpm rph now st).1 = some (true, "OK") := by
  unfold check_rate_limit clean_old_entries
  rw [if_neg (by simpa using hmin), if_neg (by simpa using hhr)]

theorem check_rejected_minute (rpm rph : Nat) (now oldest : ℚ)
    (st : RateLimiterState) (lm lh : List ℚ)
    (hm : st.minute_requests.dropWhile (fun ts => ts < now - 60) = lm)
    (hh : st.hour_requests.dropWhile (fun ts => ts < now - 3600) = lh)
    (hlen : rpm ≤ lm.length) (hhead : lm.head? = some oldest) :
    check_rate_limit rpm rph now st
      = (some (false, "Rate limit exceeded. Try again in "
          ++ toString (pyInt (60 - (now - oldest))) ++ " seconds."), ⟨lm, lh⟩) := by
  unfold check_rate_limit clean_old_entries
  simp only [hm, hh]
  rw [if_pos (by omega), hhead]


/-- Claim C8 (amended): with `requests_per_minute = 5`, five calls within a
60-second window all succeed, a sixth call strictly inside the window is
rejected — the remaining window time `60 - (t6 - t1)` is a positive
rational whose truncation to whole seconds (possibly 0) is what the
message reports — and a call after the window has elapsed succeeds. -/
theorem C8_rate_limiter_window :
    ∀ t1 t2 t3 t4 t5 t6 t7 : ℚ,
      t1 ≤ t2 → t2 ≤ t3 → t3 ≤ t4 → t4 ≤ t5 → t5 ≤ t6 →
      t6 - t1 < 60 → t5 + 60 < t7 →
      (check_rate_limit 5 30 t1 (runCalls 5 30 [])).1 = some (true, "OK") ∧
      (check_rate_limit 5 30 t2 (runCalls 5 30 [t1])).1 = some (true, "OK") ∧
      (check_rate_limit 5 30 t3 (runCalls 5 30 [t1, t2])).1 = some (true, "OK") ∧
      (check_rate_limit 5 30 t4 (runCalls 5 30 [t1, t2, t3])).1 = some (true, "OK") ∧
      (check_rate_limit 5 30 t5 (runCalls 5 30 [t1, t2, t3, t4])).1 = some (true, "OK") ∧
      (check_rate_limit 5 30 t6 (runCalls 5 30 [t1, t2, t3, t4, t5])).1
        = some (false, "Rate limit exceeded. Try again in "
            ++ toString (pyInt (60 - (t6 - t1))) ++ " seconds.") ∧
      0 < 60 - (t6 - t1) ∧
      (check_rate_limit 5 30 t7
          (check_rate_limit 5 30 t6 (runCalls 5 30 [t1, t2, t3, t4, t5])).2).1
        = some (true, "OK") := by
  intro t1 t2 t3 t4 t5 t6 t7 h12 h23 h34 h45 h56 hwin hgap
  have c1 : check_rate_limit 5 30 t1 ⟨[], []⟩ = (some (true, "OK"), ⟨[t1], [t1]⟩) :=
    check_allowed 5 30 t1 ⟨[], []⟩ [] [] rfl rfl (by simp) (by simp)
  have c2 : check_rate_limit 5 30 t2 ⟨[t1], [t1]⟩
      = (some (true, "OK"), ⟨[t1, t2], [t1, t2]⟩) :=
    check_allowed 5 30 t2 ⟨[t1], [t1]⟩ [t1] [t1]
      (dropWhile_head_keep _ _ _ (by linarith))
      (dropWhile_head_keep _ _ _ (by linarith)) (by simp) (by simp)
  have c3 : check_rate_limit 5 30 t3 ⟨[t1, t2], [t1, t2]⟩
      = (some (true, "OK"), ⟨[t1, t2, t3], [t1, t2, t3]⟩) :=
    check_allowed 5 30 t3 ⟨[t1, t2], [t1, t2]⟩ [t1, t2] [t1, t2]
      (dropWhile_head_keep _ _ _ (by linarith))
      (dropWhile_head_keep _ _ _ (by linarith)) (by simp) (by simp)
  have c4 : check_rate_limit 5 30 t4 ⟨[t1, t2, t3], [t1, t2, t3]⟩
      = (some (true, "OK"), ⟨[t1, t2, t3, t4], [t1, t2, t3, t4]⟩) :=
    check_allowed 5 30 t4 ⟨[t1, t2, t3], [t1, t2, t3]⟩ [t1, t2, t3] [t1, t2, t3]
      (dropWhile_head_keep _ _ _ (by linarith))
      (dropWhile_head_keep _ _ _ (by linarith)) (by simp) (by simp)
  have c5 : check_rate_limit 5 30 t5 ⟨[t1, t2, t3, t4], [t1, t2, t3, t4]⟩
      = (some (true, "OK"), ⟨[t1, t2, t3, t4, t5], [t1, t2, t3, t4, t5]⟩) :=
    check_allowed 5 30 t5 ⟨[t1, t2, t3, t4], [t1, t2, t3, t4]⟩
      [t1, t2, t3, t4] [t1, t2, t3, t4]
      (dropWhile_head_keep _ _ _ (by linarith))
      (dropWhile_head_keep _ _ _ (by linarith)) (by simp) (by simp)
  have c6 : check_rate_limit 5 30 t6 ⟨[t1, t2, t3, t4, t5], [t1, t2, t3, t4, t5]⟩
      = (some (false, "Rate limit exceeded. Try again in "
          ++ toString (pyInt (60 - (t6 - t1))) ++ " seconds."),
         ⟨[t1, t2, t3, t4, t5], [t1, t2, t3, t4, t5]⟩) :=
    check_rejected_minute 5 30 t6 t1 ⟨[t1, t2, t3, t4, t5], [t1, t2, t3, t4, t5]⟩
      [t1, t2, t3, t4, t5] [t1, t2, t3, t4, t5]
      (dropWhile_head_keep _ _ _ (by linarith))
      (dropWhile_head_keep _ _ _ (by linarith)) (by simp) rfl
  have r1 : runCalls 5 30 [t1] = ⟨[t1], [t1]⟩ := by
    simp only [runCalls, List.foldl, c1]
  have r2 : runCalls 5 30 [t1, t2] = ⟨[t1, t2], [t1, t2]⟩ := by
    simp only [runCalls, List.foldl, c1, c2]
  have r3 : runCalls 5 30 [t1, t2, t3] = ⟨[t1, t2, t3], [t1, t2, t3]⟩ := by
    simp only [runCalls, List.foldl, c1, c2, c3]
  have r4 : runCalls 5 30 [t1, t2, t3, t4]
      = ⟨[t1, t2, t3, t4], [t1, t2, t3, t4]⟩ := by
    simp only [runCalls, List.foldl, c1, c2, c3, c4]
  have r5 : runCalls 5 30 [t1, t2, t3, t4, t5]
      = ⟨[t1, t2, t3, t4, t5], [t1, t2, t3, t4, t5]⟩ := by
    simp only [runCalls, List.foldl, c1, c2, c3, c4, c5]
  have c7 : (check_rate_limit 5 30 t7
      ⟨[t1, t2, t3, t4, t5], [t1, t2, t3, t4, t5]⟩).1 = some (true, "OK") := by
    apply check_allowed_reply
    · rw [dropWhile_all (t7 - 60) [t1, t2, t3, t4, t5] ?_]
      · decide
      · intro x hx
        simp only [List.mem_cons, List.not_mem_nil, or_false] at hx
        rcases hx with rfl | rfl | rfl | rfl | rfl <;> linarith
    · have hle := length_dropWhile_le (fun ts => decide (ts < t7 - 3600))
        [t1, t2, t3, t4, t5]
      simp only [List.length_cons, List.length_nil] at hle ⊢
      omega
  refine ⟨by simp only [runCalls, List.foldl]; rw [c1],
    by rw [r1, c2], by rw [r2, c3], by rw [r3, c4], by rw [r4, c5],
    by rw [r5, c6], by linarith, ?_⟩
  rw [r5, c6]
  exact c7


/-- Five allowed calls at t = 0 fill both deques with five zeros. -/
theorem runCalls_five_zeros :
    runCalls 5 30 [0, 0, 0, 0, 0] = ⟨[0, 0, 0, 0, 0], [0, 0, 0, 0, 0]⟩ := by
  have c1 : check_rate_limit 5 30 (0 : ℚ) ⟨[], []⟩
      = (some (true, "OK"), ⟨[0], [0]⟩) :=
    check_allowed 5 30 0 ⟨[], []⟩ [] [] rfl rfl (by simp) (by simp)
  have c2 : check_rate_limit 5 30 (0 : ℚ) ⟨[0], [0]⟩
      = (some (true, "OK"), ⟨[0, 0], [0, 0]⟩) :=
    check_allowed 5 30 0 ⟨[0], [0]⟩ [0] [0]
      (dropWhile_head_keep _ _ _ (by norm_num))
      (dropWhile_head_keep _ _ _ (by norm_num)) (by simp) (by simp)
  have c3 : check_rate_limit 5 30 (0 : ℚ) ⟨[0, 0], [0, 0]⟩
      = (some (true, "OK"), ⟨[0, 0, 0], [0, 0, 0]⟩) :=
    check_allowed 5 30 0 ⟨[0, 0], [0, 0]⟩ [0, 0] [0, 0]
      (dropWhile_head_keep _ _ _ (by norm_num))
      (dropWhile_head_keep _ _ _ (by norm_num)) (by simp) (by simp)
  have c4 : check_rate_limit 5 30 (0 : ℚ) ⟨[0, 0, 0], [0, 0, 0]⟩
      = (some (true, "OK"), ⟨[0, 0, 0, 0], [0, 0, 0, 0]⟩) :=
    check_allowed 5 30 0 ⟨[0, 0, 0], [0, 0, 0]⟩ [0, 0, 0] [0, 0, 0]
      (dropWhile_head_keep _ _ _ (by norm_num))
      (dropWhile_head_keep _ _ _ (by norm_num)) (by simp) (by simp)
  have c5 : check_rate_limit 5 30 (0 : ℚ) ⟨[0, 0, 0, 0], [0, 0, 0, 0]⟩
      = (some (true, "OK"), ⟨[0, 0, 0, 0, 0], [0, 0, 0, 0, 0]⟩) :=
    check_allowed 5 30 0 ⟨[0, 0, 0, 0], [0, 0, 0, 0]⟩ [0, 0, 0, 0] [0, 0, 0, 0]
      (dropWhile_head_keep _ _ _ (by norm_num))
      (dropWhile_head_keep _ _ _ (by norm_num)) (by simp) (by simp)
  simp only [runCalls, List.foldl, c1, c2, c3, c4, c5]

/-- Counterexample to C8 as stated: five calls at t = 0 and a sixth at
t = 59.5 (inside the window) produce a rejection whose message reports the
wait-time estimate 0 — not positive — because `int()` truncates the
remaining half second. -/
theorem C8_counterexample :
    (check_rate_limit 5 30 (119 / 2 : ℚ) (runCalls 5 30 [0, 0, 0, 0, 0])).1
      = some (false, "Rate limit exceeded. Try again in 0 seconds.") ∧
    pyInt (60 - ((119 / 2 : ℚ) - 0)) = 0 ∧
    (0 : ℚ) < 60 - ((119 / 2 : ℚ) - 0) := by
  have hpy : pyInt (60 - ((119 / 2 : ℚ) - 0)) = 0 := by
    unfold pyInt
    rw [if_neg (by norm_num)]
    show ⌊(60 - ((119 / 2 : ℚ) - 0) : ℚ)⌋ = 0
    norm_num
  have c6 : check_rate_limit 5 30 (119 / 2 : ℚ)
      ⟨[0, 0, 0, 0, 0], [0, 0, 0, 0, 0]⟩
      = (some (false, "Rate limit exceeded. Try again in "
          ++ toString (pyInt (60 - ((119 / 2 : ℚ) - 0))) ++ " seconds."),
         ⟨[0, 0, 0, 0, 0], [0, 0, 0, 0, 0]⟩) :=
    check_rejected_minute 5 30 (119 / 2) 0
      ⟨[0, 0, 0, 0, 0], [0, 0, 0, 0, 0]⟩ [0, 0, 0, 0, 0] [0, 0, 0, 0, 0]
      (dropWhile_head_keep _ _ _ (by norm_num))
      (dropWhile_head_keep _ _ _ (by norm_num)) (by simp) rfl
  refine ⟨?_, hpy, by norm_num⟩
  rw [runCalls_five_zeros, c6, hpy]
  rfl

/-- Witness for C8 (amended) at calls t = 0, 10, 20, 30, 40, a rejected
sixth at t = 50 with ten seconds reported, and an allowed call at t = 111. -/
theorem C8_witness :
    (check_rate_limit 5 30 (50 : ℚ) (runCalls 5 30 [(0 : ℚ), 10, 20, 30, 40])).1
      = some (false, "Rate limit exceeded. Try again in "
          ++ toString (pyInt (60 - ((50 : ℚ) - 0))) ++ " seconds.") ∧
    (0 : ℚ) < 60 - ((50 : ℚ) - 0) ∧
    (check_rate_limit 5 30 (111 : ℚ)
        (check_rate_limit 5 30 (50 : ℚ) (runCalls 5 30 [(0 : ℚ), 10, 20, 30, 40])).2).1
      = some (true, "OK") := by
  have h := C8_rate_limiter_window 0 10 20 30 40 50 111
    (by norm_num) (by norm_num) (by norm_num) (by norm_num) (by norm_num)
    (by norm_num) (by norm_num)
  exact ⟨h.2.2.2.2.2.1, h.2.2.2.2.2.2.1, h.2.2.2.2.2.2.2⟩


theorem check_bounds (rpm rph : Nat) (now : ℚ) (st : RateLimiterState)
    (hm : st.minute_requests.length ≤ rpm) (hh : st.hour_requests.length ≤ rph) :
    (check_rate_limit rpm rph now st).2.minute_requests.length ≤ rpm ∧
    (check_rate_limit rpm rph now st).2.hour_requests.length ≤ rph := by
  have hm1 := length_dropWhile_le (fun ts => decide (ts < now - 60)) st.minute_requests
  have hh1 := length_dropWhile_le (fun ts => decide (ts < now - 3600)) st.hour_requests
  unfold check_rate_limit clean_old_entries
  by_cases h1 : rpm ≤ (st.minute_requests.dropWhile (fun ts => ts < now - 60)).length
  · rw [if_pos h1]
    constructor <;> simp <;> omega
  · rw [if_neg h1]
    by_cases h2 : rph ≤ (st.hour_requests.dropWhile (fun ts => ts < now - 3600)).length
    · rw [if_pos h2]
      constructor <;> simp <;> omega
    · rw [if_neg h2]
      constructor <;> simp <;> omega

theorem runCalls_bounds (rpm rph : Nat) (times : List ℚ) :
    (runCalls rpm rph times).minute_requests.length ≤ rpm ∧
    (runCalls rpm rph times).hour_requests.length ≤ rph := by
  have key : ∀ (ts : List ℚ) (st : RateLimiterState),
      st.minute_requests.length ≤ rpm → st.hour_requests.length ≤ rph →
      (ts.foldl (fun st t => (check_rate_limit rpm rph t st).2) st).minute_requests.length ≤ rpm ∧
      (ts.foldl (fun st t => (check_rate_limit rpm rph t st).2) st).hour_requests.length ≤ rph := by
    intro ts
    induction ts with
    | nil => intro st hm hh; exact ⟨hm, hh⟩
    | cons t ts ih =>
      intro st hm hh
      simp only [List.foldl]
      obtain ⟨hm2, hh2⟩ := check_bounds rpm rph t st hm hh
      exact ih _ hm2 hh2
  exact key times ⟨[], []⟩ (by simp) (by simp)

/-- Claim C9: a rejected `check_rate_limit` call appends no timestamp to
either deque — the resulting state is exactly the pruned deques — and
consequently, starting from empty deques, after any call sequence the
per-minute deque holds at most `requests_per_minute` entries and the
per-hour deque at most `requests_per_hour`. -/
theorem C9_rejection_consumes_no_quota :
    (∀ (rpm rph : Nat) (now : ℚ) (st : RateLimiterState) (msg : String),
      (check_rate_limit rpm rph now st).1 = some (false, msg) →
      (check_rate_limit rpm rph now st).2 = clean_old_entries now st) ∧
    (∀ (rpm rph : Nat) (times : List ℚ),
      (runCalls rpm rph times).minute_requests.length ≤ rpm ∧
      (runCalls rpm rph times).hour_requests.length ≤ rph) := by
  constructor
  · intro rpm rph now st msg h
    unfold check_rate_limit at h ⊢
    by_cases h1 : rpm ≤ ((clean_old_entries now st).minute_requests).length
    · rw [if_pos h1] at h ⊢
    · rw [if_neg h1] at h ⊢
      by_cases h2 : rph ≤ ((clean_old_entries now st).hour_requests).length
      · rw [if_pos h2] at h ⊢
      · rw [if_neg h2] at h ⊢
        simp at h
  · exact runCalls_bounds

/-- Witness for C9: a rejected sixth call at t = 30 leaves the deques
exactly pruned, and the bound holds after six calls. -/
theorem C9_witness :
    (check_rate_limit 5 30 (30 : ℚ) (runCalls 5 30 [0, 0, 0, 0, 0])).2
      = clean_old_entries 30 (runCalls 5 30 [0, 0, 0, 0, 0]) ∧
    (runCalls 5 30 [0, 0, 0, 0, 0, 30]).minute_requests.length ≤ 5 := by
  have c6 : check_rate_limit 5 30 (30 : ℚ) ⟨[0, 0, 0, 0, 0], [0, 0, 0, 0, 0]⟩
      = (some (false, "Rate limit exceeded. Try again in "
          ++ toString (pyInt (60 - ((30 : ℚ) - 0))) ++ " seconds."),
         ⟨[0, 0, 0, 0, 0], [0, 0, 0, 0, 0]⟩) :=
    check_rejected_minute 5 30 30 0
      ⟨[0, 0, 0, 0, 0], [0, 0, 0, 0, 0]⟩ [0, 0, 0, 0, 0] [0, 0, 0, 0, 0]
      (dropWhile_head_keep _ _ _ (by norm_num))
      (dropWhile_head_keep _ _ _ (by norm_num)) (by simp) rfl
  constructor
  · apply C9_rejection_consumes_no_quota.1 5 30 30 (runCalls 5 30 [0, 0, 0, 0, 0])
      ("Rate limit exceeded. Try again in "
        ++ toString (pyInt (60 - ((30 : ℚ) - 0))) ++ " seconds.")
    rw [runCalls_five_zeros, c6]
  · exact (C9_rejection_consumes_no_quota.2 5 30 [0, 0, 0, 0, 0, 30]).1


theorem dictGet_dictInsert_self (l : List (String × String)) (k v : String) :
    dictGet (dictInsert l k v) k = some v := by
  induction l with
  | nil => simp [dictInsert, dictGet]
  | cons a rest ih =>
    rcases a with ⟨k1, v1⟩
    unfold dictInsert
    by_cases h : k1 = k
    · rw [if_pos h]
      simp [dictGet]
    · rw [if_neg h]
      unfold dictGet
      rw [if_neg h]
      exact ih

theorem dictGet_dictInsert_ne (l : List (String × String)) (k k1 v : String)
    (h : k1 ≠ k) :
    dictGet (dictInsert l k1 v) k = dictGet l k := by
  induction l with
  | nil => simp [dictInsert, dictGet, h]
  | cons a rest ih =>
    rcases a with ⟨k2, v2⟩
    unfold dictInsert
    by_cases h2 : k2 = k1
    · subst h2
      rw [if_pos rfl]
      unfold dictGet
      rw [if_neg h, if_neg h]
    · rw [if_neg h2]
      unfold dictGet
      by_cases h3 : k2 = k
      · rw [if_pos h3, if_pos h3]
      · rw [if_neg h3, if_neg h3]
        exact ih

/-- Claim C10: issuing a key for `user_id` and immediately verifying it
returns `user_id`; verifying a key that was never issued and is not one of
the three pre-populated demo keys returns no user. -/
theorem C10_key_roundtrip :
    (∀ (st : APIKeyStore) (user_id tok : String),
      verify_key (generate_key st user_id tok).2 (generate_key st user_id tok).1
        = some user_id) ∧
    (∀ (ops : List (String × String)) (k : String),
      k ∉ ops.map (fun op => op.1 ++ "-" ++ op.2) →
      k ≠ "demo-key-12345" → k ≠ "guest-key-67890" → k ≠ "test-key-abcde" →
      verify_key (buildStore ops) k = none) := by
  constructor
  · intro st user_id tok
    exact dictGet_dictInsert_self st.keys (user_id ++ "-" ++ tok) user_id
  · have key : ∀ (ops : List (String × String)) (st : APIKeyStore) (k : String),
        k ∉ ops.map (fun op => op.1 ++ "-" ++ op.2) →
        verify_key st k = none →
        verify_key (ops.foldl (fun st op => (generate_key st op.1 op.2).2) st) k
          = none := by
      intro ops
      induction ops with
      | nil => intro st k _ h; exact h
      | cons op rest ih =>
        intro st k hnot h
        have hnot2 : k ∉ rest.map (fun op => op.1 ++ "-" ++ op.2) := by
          intro hmem
          apply hnot
          simp only [List.map_cons, List.mem_cons]
          exact Or.inr hmem
        have hne : op.1 ++ "-" ++ op.2 ≠ k := by
          intro he
          apply hnot
          simp only [List.map_cons, List.mem_cons]
          exact Or.inl he.symm
        simp only [List.foldl]
        apply ih _ k hnot2
        show dictGet (dictInsert st.keys (op.1 ++ "-" ++ op.2) op.1) k = none
        rw [dictGet_dictInsert_ne st.keys k (op.1 ++ "-" ++ op.2) op.1 hne]
        exact h
    intro ops k hnot h1 h2 h3
    apply key ops .init k hnot
    show dictGet APIKeyStore.init.keys k = none
    unfold APIKeyStore.init dictGet
    rw [if_neg (fun he => h1 he.symm)]
    unfold dictGet
    rw [if_neg (fun he => h2 he.symm)]
    unfold dictGet
    rw [if_neg (fun he => h3 he.symm)]
    rfl

/-- Witness for C10: a round-trip for user "alice" and a miss for an
unissued key. -/
theorem C10_witness :
    verify_key (generate_key .init "alice" "tok123").2
        (generate_key .init "alice" "tok123").1 = some "alice" ∧
    verify_key (buildStore [("alice", "tok123")]) "bob-key" = none :=
  ⟨C10_key_roundtrip.1 .init "alice" "tok123",
   C10_key_roundtrip.2 [("alice", "tok123")] "bob-key"
     (by decide) (by decide) (by decide) (by decide)⟩


/-- Witness for C3 (amended) at a raising critique call on a state with a
500-character report and no fallback mark. -/
theorem C3_witness :
    critiquePassed (some (criticModelCritique (critique_report .raises))) = true ∧
    critiquePassed ((critic_node .raises modelState).1.critique) = true ∧
    (critic_node .raises modelState).2 = true :=
  ⟨(C3_fail_open_critique .raises modelState longReport rfl).1,
   ((C3_fail_open_critique .raises modelState longReport rfl).2 rfl (by decide) rfl).1,
   ((C3_fail_open_critique .raises modelState longReport rfl).2 rfl (by decide) rfl).2⟩

end TradeAPI
